import Mathlib

/-!
Verification of the STELLAR-COMPASS multi-agent monitoring orchestrator
(`src/backend/stellar_ai_agents.py`) against its specification.

The Python module is shallowly embedded: every monitor `check` becomes a
pure Lean function from the monitor's comparison state and the observed
collaborator data to the new state and the list of emitted alerts; the
orchestrator becomes a record threaded through its methods.  Python floats
are modelled as rationals (all constants in the source are exact decimals),
Python dicts as insertion-ordered association lists.
-/

namespace StellarCompass

/-- Alert priorities produced by the agents.  The source stores them as the
strings LOW / MEDIUM / HIGH / CRITICAL; `pstr` recovers that string. -/
inductive Priority where
  | LOW
  | MEDIUM
  | HIGH
  | CRITICAL
deriving DecidableEq, Repr

/-- The priority string stored in the alert dict by the source. -/
def pstr : Priority → String
  | .LOW => "LOW"
  | .MEDIUM => "MEDIUM"
  | .HIGH => "HIGH"
  | .CRITICAL => "CRITICAL"

/-- One alert dict as built by every agent: keys `type`, `priority`,
`title`, `message`, `action`, `timestamp`. -/
structure Alert where
  type : String
  priority : Priority
  title : String
  message : String
  action : String
  timestamp : String
deriving DecidableEq, Repr

/-- Association-list lookup, modelling Python `d[k]` / `k in d`. -/
def alookup {α : Type} (k : String) : List (String × α) → Option α
  | [] => none
  | (k', v) :: t => if k' = k then some v else alookup k t

/-- Association-list update, modelling Python `d[k] = v` (an existing key
keeps its position, a new key is appended, matching dict insertion order). -/
def ainsert {α : Type} (k : String) (v : α) : List (String × α) → List (String × α)
  | [] => [(k, v)]
  | (k', v') :: t => if k' = k then (k, v) :: t else (k', v') :: ainsert k v t

/-- Python built-in `abs` on a rational. -/
def pyabs (q : ℚ) : ℚ := if q ≥ 0 then q else -q

/-- Python `str.lower()`, character by character. -/
def pyLower (s : String) : String := String.mk (s.data.map Char.toLower)

/-- Python `f"{q:.df}"` fixed-point formatting of a nonnegative decimal
rational: round to `d` places and print with exactly `d` digits after the
point. -/
def fmtFixed (d : Nat) (q : ℚ) : String :=
  let scaled : Int := ⌊q * (10 : ℚ) ^ d + 1 / 2⌋
  let n : Nat := scaled.toNat
  let s : String := toString (n % 10 ^ d)
  let pad : String := String.mk (List.replicate (d - s.length) '0')
  toString (n / 10 ^ d) ++ "." ++ pad ++ s

/-- Python `str(x)` for a float holding a small exact decimal (used only in
the Opportunity Scout title interpolation `{current_apy}`): print the
shortest decimal expansion, with at least one digit after the point. -/
def pyNum (q : ℚ) : String :=
  let d := ((List.range 7).find? (fun d => (q * (10 : ℚ) ^ d).den == 1)).getD 6
  fmtFixed (max 1 d) q

/-! ## Monitor check functions (stellar_ai_agents.py, classes of `BaseAgent`)

Each `check` is embedded as a pure function of the monitor's comparison
state (when it has one) and the data returned by the mocked collaborator,
yielding the new state and the alerts passed to the notification callback.
`now` stands for `datetime.now().isoformat()`. -/

/-- One idle-asset record returned by `IdleAssetMonitorAgent._get_idle_assets`. -/
structure IdleAsset where
  asset : String
  days_idle : Nat
  value_usd : ℚ
  potential_monthly : ℚ
deriving DecidableEq, Repr

/-- `IdleAssetMonitorAgent.check` (lines 57-71): one alert per asset idle at
least `idle_threshold_days = 30` days, MEDIUM below 60 days, else HIGH. -/
def idleCheck (now : String) (idle_assets : List IdleAsset) : List Alert :=
  idle_assets.foldl (fun acc a =>
    if a.days_idle ≥ 30 then
      acc ++ [{ type := "IDLE_ASSET",
                priority := if a.days_idle < 60 then .MEDIUM else .HIGH,
                title := a.asset ++ " sitting idle for " ++ toString a.days_idle ++ " days",
                message := "$" ++ fmtFixed 2 a.value_usd ++ " could be earning $"
                  ++ fmtFixed 2 a.potential_monthly ++ "/month",
                action := "Activate Now",
                timestamp := now }]
    else acc) []

/-- Mock data of `IdleAssetMonitorAgent._get_idle_assets`. -/
def mock_idle_assets : List IdleAsset :=
  [⟨"XLM", 45, 600, 48/10⟩, ⟨"USDC", 33, 1500, 12⟩]

/-- One opportunity record returned by
`OpportunityScoutAgent._get_current_opportunities`. -/
structure Opp where
  protocol : String
  apy : ℚ
  risk : String
deriving DecidableEq, Repr

/-- The alerts the body of the `OpportunityScoutAgent.check` loop emits for
one opportunity, given the `tracked_apys` state at that point (lines
95-112): an APY_SPIKE HIGH alert when the protocol is already tracked and
its APY rose by more than 2 percentage points. -/
def scoutEntryAlerts (now : String) (tracked : List (String × ℚ)) (o : Opp) : List Alert :=
  match alookup o.protocol tracked with
  | none => []
  | some previous_apy =>
    let increase := o.apy - previous_apy
    if increase > 2 then
      [{ type := "APY_SPIKE",
         priority := .HIGH,
         title := o.protocol ++ " APY jumped to " ++ pyNum o.apy ++ "%",
         message := "Up " ++ fmtFixed 1 increase ++ "% from "
           ++ fmtFixed 1 previous_apy ++ "%. Time to invest?",
         action := "View Details",
         timestamp := now }]
    else []

/-- `OpportunityScoutAgent.check` (lines 91-114): fold over the
opportunities, emitting per-entry alerts and recording
`tracked_apys[protocol] = apy` after each entry. -/
def scoutCheck (now : String) (tracked : List (String × ℚ)) :
    List Opp → List (String × ℚ) × List Alert
  | [] => (tracked, [])
  | o :: rest =>
    let r := scoutCheck now (ainsert o.protocol o.apy tracked) rest
    (r.1, scoutEntryAlerts now tracked o ++ r.2)

/-- Mock data of `OpportunityScoutAgent._get_current_opportunities`. -/
def mock_opportunities : List Opp :=
  [⟨"Aquarius", 125/10, "MODERATE"⟩, ⟨"Stellar Lend", 83/10, "LOW"⟩]

/-- One risk record returned by `RiskMonitorAgent._check_risks`. -/
structure Risk where
  severity : String
  title : String
  message : String
deriving DecidableEq, Repr

/-- `RiskMonitorAgent.check` (lines 132-145): one alert per risk of HIGH or
CRITICAL severity, priority mirroring the severity. -/
def riskCheck (now : String) (risks : List Risk) : List Alert :=
  risks.foldl (fun acc r =>
    if r.severity = "HIGH" ∨ r.severity = "CRITICAL" then
      acc ++ [{ type := "RISK_ALERT",
                priority := if r.severity = "CRITICAL" then .CRITICAL else .HIGH,
                title := r.title,
                message := r.message,
                action := "Review Position",
                timestamp := now }]
    else acc) []

/-- `AutoRebalancerAgent.check` (lines 168-184): for each risk bucket of the
target allocation, alert (MEDIUM) when the current fraction drifts more
than `drift_threshold = 0.10` from target; a bucket missing from the
current allocation counts as 0. -/
def rebalancerCheck (now : String) (target_allocation current_allocation : List (String × ℚ)) :
    List Alert :=
  target_allocation.foldl (fun acc p =>
    let current_pct := (alookup p.1 current_allocation).getD 0
    let drift := pyabs (current_pct - p.2)
    if drift > 1/10 then
      acc ++ [{ type := "REBALANCE",
                priority := .MEDIUM,
                title := "Portfolio needs rebalancing",
                message := p.1 ++ " allocation drifted " ++ fmtFixed 1 (drift * 100)
                  ++ "% from target",
                action := "Rebalance",
                timestamp := now }]
    else acc) []

/-- Mock data of `AutoRebalancerAgent._get_current_allocation`. -/
def mock_current_allocation : List (String × ℚ) :=
  [("LOW", 45/100), ("MODERATE", 35/100), ("HIGH", 20/100)]

/-- One reward record returned by `YieldHarvesterAgent._get_unclaimed_rewards`. -/
structure Reward where
  protocol : String
  asset : String
  amount : ℚ
  value_usd : ℚ
deriving DecidableEq, Repr

/-- `YieldHarvesterAgent.check` (lines 200-214): a single LOW alert when the
summed unclaimed value reaches `min_claim_threshold = 1.0` dollars. -/
def yieldCheck (now : String) (unclaimed : List Reward) : List Alert :=
  let total_unclaimed := (unclaimed.map (fun r => r.value_usd)).sum
  if total_unclaimed ≥ 1 then
    [{ type := "HARVEST",
       priority := .LOW,
       title := "$" ++ fmtFixed 2 total_unclaimed ++ " in unclaimed rewards",
       message := "Ready to harvest from " ++ toString unclaimed.length ++ " protocols",
       action := "Claim All",
       timestamp := now }]
  else []

/-- Mock data of `YieldHarvesterAgent._get_unclaimed_rewards`. -/
def mock_unclaimed_rewards : List Reward :=
  [⟨"Aquarius", "XLM", 85/10, 102/100⟩]

/-- The alerts the body of the `PriceMovementAgent.check` loop emits for one
(asset, price) observation, given the `last_prices` state at that point
(lines 237-251): alert when the asset is tracked and the relative change is
at least `price_threshold = 0.05` in magnitude, MEDIUM below magnitude
0.10, else HIGH. -/
def priceEntryAlerts (now : String) (last_prices : List (String × ℚ))
    (asset : String) (price : ℚ) : List Alert :=
  match alookup asset last_prices with
  | none => []
  | some previous =>
    let change := (price - previous) / previous
    if pyabs change ≥ 1/20 then
      [{ type := "PRICE_MOVEMENT",
         priority := if pyabs change < 1/10 then .MEDIUM else .HIGH,
         title := asset ++ " " ++ (if change > 0 then "up" else "down") ++ " "
           ++ fmtFixed 1 (pyabs change * 100) ++ "%",
         message := "Current price: $" ++ fmtFixed 4 price,
         action := "Check Portfolio",
         timestamp := now }]
    else []

/-- `PriceMovementAgent.check` (lines 233-253): fold over the observed
prices dict, emitting per-entry alerts and recording
`last_prices[asset] = price` after each entry. -/
def priceCheck (now : String) (last_prices : List (String × ℚ)) :
    List (String × ℚ) → List (String × ℚ) × List Alert
  | [] => (last_prices, [])
  | p :: rest =>
    let r := priceCheck now (ainsert p.1 p.2 last_prices) rest
    (r.1, priceEntryAlerts now last_prices p.1 p.2 ++ r.2)

/-- Mock data of `PriceMovementAgent._get_current_prices`. -/
def mock_current_prices : List (String × ℚ) :=
  [("XLM", 12/100), ("USDC", 1), ("BTC", 45000)]

/-! ## BaseAgent lifecycle (stellar_ai_agents.py lines 12-45)

`loopThreads` counts the daemon threads spawned by
`threading.Thread(target=self._run_loop).start()`; the source never joins
or terminates them, so each `start` call adds one.  `start` is given an
`Except` result type so that the specified `AlreadyRunning` failure is
expressible; the source itself has no failure path. -/

/-- Lifecycle errors named by the specification. -/
inductive AgentError where
  | AlreadyRunning
deriving DecidableEq, Repr

/-- Observable state of one `BaseAgent`. -/
structure Agent where
  name : String
  checkIntervalSeconds : Nat
  is_active : Bool
  loopThreads : Nat
deriving DecidableEq, Repr

/-- `BaseAgent.__init__` (lines 15-20): interval stored in seconds. -/
def mkAgent (name : String) (check_interval_minutes : Nat) : Agent :=
  { name := name
    checkIntervalSeconds := check_interval_minutes * 60
    is_active := false
    loopThreads := 0 }

/-- `BaseAgent.start` (lines 22-26): unconditionally sets `is_active` and
spawns a fresh `_run_loop` thread; no guard against already running. -/
def Agent.start (a : Agent) : Except AgentError Agent :=
  .ok { a with is_active := true, loopThreads := a.loopThreads + 1 }

/-- `BaseAgent.stop` (lines 28-30). -/
def Agent.stop (a : Agent) : Agent :=
  { a with is_active := false }

/-- One pass of `BaseAgent._run_loop` (lines 32-41) for each scheduled
cycle: a successful `check` yields its alerts and a sleep of the agent's
interval; an exception is caught and yields no alerts and a fixed 60
second sleep.  `runLoop` runs the loop over a finite script of cycle
outcomes (the loop in the source repeats while `is_active`), returning all
emitted alerts and the sleep taken after each cycle. -/
def runLoop (checkIntervalSeconds : Nat) :
    List (Except String (List Alert)) → List Alert × List Nat
  | [] => ([], [])
  | r :: rest =>
    let tail := runLoop checkIntervalSeconds rest
    match r with
    | .ok alerts => (alerts ++ tail.1, checkIntervalSeconds :: tail.2)
    | .error _ => (tail.1, 60 :: tail.2)

/-! ## AgentOrchestrator (stellar_ai_agents.py lines 260-359) -/

/-- The `notification_channels` dict: each channel key may be absent. -/
structure Channels where
  push : Option Bool
  email : Option Bool
  sms : Option Bool
deriving DecidableEq, Repr

/-- A notification channel. -/
inductive Channel where
  | push
  | email
  | sms
deriving DecidableEq, Repr

/-- Orchestrator errors named by the specification. -/
inductive OrchError where
  | AlreadyActive
deriving DecidableEq, Repr

/-- Observable state of an `AgentOrchestrator`.  `rebalancerAlloc` is the
`target_allocation` dict captured by the `AutoRebalancerAgent` constructed
in `activate_all_agents` (line 285; none before activation);
`startedLoops` lists the names of all run-loop threads ever spawned, which
the source never stops when the agent list is replaced. -/
structure Orchestrator where
  wallet_address : String
  notification_channels : Channels
  phone_number : String
  risk_tolerance : String
  agents : List Agent
  alert_history : List Alert
  target_allocation : List (String × ℚ)
  rebalancerAlloc : Option (List (String × ℚ))
  startedLoops : List String
deriving DecidableEq, Repr

/-- The risk-tolerance table of `AgentOrchestrator.__init__` (lines
273-277): dict lookup on `risk_tolerance.lower()` with the moderate row as
default. -/
def deriveAllocation (risk_tolerance : String) : List (String × ℚ) :=
  match pyLower risk_tolerance with
  | "conservative" => [("LOW", 80/100), ("MODERATE", 20/100), ("HIGH", 0)]
  | "aggressive" => [("LOW", 30/100), ("MODERATE", 40/100), ("HIGH", 30/100)]
  | _ => [("LOW", 50/100), ("MODERATE", 40/100), ("HIGH", 10/100)]

/-- `AgentOrchestrator.__init__` (lines 263-277); the source defaults are
`phone_number = ""` and `risk_tolerance = "moderate"`. -/
def initOrchestrator (wallet_address : String) (notification_channels : Channels)
    (phone_number : String) (risk_tolerance : String) : Orchestrator :=
  { wallet_address := wallet_address
    notification_channels := notification_channels
    phone_number := phone_number
    risk_tolerance := risk_tolerance
    agents := []
    alert_history := []
    target_allocation := deriveAllocation risk_tolerance
    rebalancerAlloc := none
    startedLoops := [] }

/-- The six agents constructed by `activate_all_agents` (lines 281-288),
each already started (`agent.start()` on line 291 spawns its loop thread). -/
def sixStartedAgents : List Agent :=
  [ { mkAgent "Idle Asset Monitor" 5 with is_active := true, loopThreads := 1 },
    { mkAgent "Opportunity Scout" 5 with is_active := true, loopThreads := 1 },
    { mkAgent "Risk Monitor" 10 with is_active := true, loopThreads := 1 },
    { mkAgent "Auto Rebalancer" 60 with is_active := true, loopThreads := 1 },
    { mkAgent "Yield Harvester" 60 with is_active := true, loopThreads := 1 },
    { mkAgent "Price Movement Monitor" 5 with is_active := true, loopThreads := 1 } ]

/-- `AgentOrchestrator.activate_all_agents` (lines 279-292): replaces the
agent list with a fresh started set of six, unguarded; the rebalancer
captures the orchestrator's current `target_allocation`.  The `Except`
result expresses the specified `AlreadyActive` failure; the source has no
failure path. -/
def Orchestrator.activate_all_agents (o : Orchestrator) : Except OrchError Orchestrator :=
  .ok { o with
    agents := sixStartedAgents
    rebalancerAlloc := some o.target_allocation
    startedLoops := o.startedLoops ++ sixStartedAgents.map Agent.name }

/-- `AgentOrchestrator.deactivate_all_agents` (lines 294-298). -/
def Orchestrator.deactivate_all_agents (o : Orchestrator) : Orchestrator :=
  { o with agents := o.agents.map Agent.stop }

/-- The history update of `AgentOrchestrator._handle_notification` (lines
302-307): append, then keep only the last 100 (`alert_history[-100:]`). -/
def histStep (h : List Alert) (a : Alert) : List Alert :=
  let h1 := h ++ [a]
  if h1.length > 100 then h1.drop (h1.length - 100) else h1

/-- The channel routing of `AgentOrchestrator._handle_notification` (lines
312-319), in dispatch order: push when `get('push', True)`, email when
`get('email', True)`, sms when `get('sms', False)` and the priority is
HIGH or CRITICAL. -/
def firedChannels (channels : Channels) (p : Priority) : List Channel :=
  (if channels.push.getD true then [Channel.push] else []) ++
  (if channels.email.getD true then [Channel.email] else []) ++
  (if channels.sms.getD false ∧ pstr p ∈ ["HIGH", "CRITICAL"] then [Channel.sms] else [])

/-- `AgentOrchestrator._handle_notification` (lines 300-319): update the
bounded history, then dispatch to the selected channels. -/
def Orchestrator.handle (o : Orchestrator) (a : Alert) : Orchestrator × List Channel :=
  ({ o with alert_history := histStep o.alert_history a },
   firedChannels o.notification_channels a.priority)

/-- A whole sequence of `_handle_notification` calls. -/
def Orchestrator.handleAll (o : Orchestrator) (as : List Alert) : Orchestrator :=
  as.foldl (fun acc a => (acc.handle a).1) o

/-- Python slice `l[start:]` for an arbitrary integer `start`: a negative
start counts from the end (clamped at 0), a nonnegative start drops that
many elements (clamped at the length). -/
def pySliceFrom {α : Type} (start : Int) (l : List α) : List α :=
  if start < 0 then l.drop ((l.length : Int) + start).toNat
  else l.drop start.toNat

/-- `AgentOrchestrator.get_recent_alerts` (lines 338-340):
`alert_history[-limit:]`; the source default is `limit = 20`. -/
def Orchestrator.get_recent_alerts (o : Orchestrator) (limit : Int) : List Alert :=
  pySliceFrom (-limit) o.alert_history

/-- The settings dict accepted by `update_settings`; absent keys are `none`. -/
structure Settings where
  phoneNumber : Option String
  riskTolerance : Option String
  emailNotifications : Option Bool
  smsNotifications : Option Bool
  pushNotifications : Option Bool
deriving DecidableEq, Repr

/-- `AgentOrchestrator.update_settings` (lines 342-359): each present key
updates its own field; nothing else changes (in particular
`target_allocation` is not re-derived). -/
def Orchestrator.update_settings (o : Orchestrator) (s : Settings) : Orchestrator :=
  let o1 := match s.phoneNumber with
    | some p => { o with phone_number := p }
    | none => o
  let o2 := match s.riskTolerance with
    | some rt => { o1 with risk_tolerance := rt }
    | none => o1
  let o3 := match s.emailNotifications with
    | some b => { o2 with notification_channels := { o2.notification_channels with email := some b } }
    | none => o2
  let o4 := match s.smsNotifications with
    | some b => { o3 with notification_channels := { o3.notification_channels with sms := some b } }
    | none => o3
  match s.pushNotifications with
    | some b => { o4 with notification_channels := { o4.notification_channels with push := some b } }
    | none => o4

/-! ## Helper lemmas -/

/-- Python `abs` agrees with the mathematical absolute value. -/
theorem pyabs_eq_abs (q : ℚ) : pyabs q = |q| := by
  rcases le_or_lt 0 q with h | h
  · rw [pyabs, if_pos h, abs_of_nonneg h]
  · rw [pyabs, if_neg (not_le.mpr h), abs_of_neg h]

theorem alookup_ainsert {α : Type} (k kI : String) (v : α) (l : List (String × α)) :
    alookup k (ainsert kI v l) = if kI = k then some v else alookup k l := by
  induction l with
  | nil => simp [ainsert, alookup]
  | cons p t ih =>
    obtain ⟨k', v'⟩ := p
    by_cases h : k' = kI
    · subst h
      simp only [ainsert, if_pos rfl, alookup]
      split_ifs <;> simp_all [alookup]
    · simp only [ainsert, if_neg h, alookup, ih]
      split_ifs <;> simp_all

/-- A cycle whose per-protocol baselines are all absent emits nothing
(given one observation per protocol, as the mocked collaborators provide). -/
theorem scoutCheck_all_new (now : String) :
    ∀ (opps : List Opp) (tracked : List (String × ℚ)),
      (∀ o ∈ opps, alookup o.protocol tracked = none) →
      (opps.map (fun o => o.protocol)).Nodup →
      (scoutCheck now tracked opps).2 = [] := by
  intro opps
  induction opps with
  | nil => intro tracked _ _; rfl
  | cons o rest ih =>
    intro tracked hnone hnd
    rw [List.map_cons, List.nodup_cons] at hnd
    have h1 : scoutEntryAlerts now tracked o = [] := by
      simp [scoutEntryAlerts, hnone o (by simp)]
    simp only [scoutCheck, h1, List.nil_append]
    apply ih _ _ hnd.2
    intro o' ho'
    rw [alookup_ainsert]
    have hne : o.protocol ≠ o'.protocol := by
      intro hEq
      exact hnd.1 (hEq ▸ List.mem_map_of_mem (fun x => x.protocol) ho')
    rw [if_neg hne]
    exact hnone o' (List.mem_cons_of_mem _ ho')

/-- Price-monitor analogue of `scoutCheck_all_new`. -/
theorem priceCheck_all_new (now : String) :
    ∀ (ps : List (String × ℚ)) (last_prices : List (String × ℚ)),
      (∀ p ∈ ps, alookup p.1 last_prices = none) →
      (ps.map Prod.fst).Nodup →
      (priceCheck now last_prices ps).2 = [] := by
  intro ps
  induction ps with
  | nil => intro last _ _; rfl
  | cons p rest ih =>
    intro last hnone hnd
    rw [List.map_cons, List.nodup_cons] at hnd
    have h1 : priceEntryAlerts now last p.1 p.2 = [] := by
      simp [priceEntryAlerts, hnone p (by simp)]
    simp only [priceCheck, h1, List.nil_append]
    apply ih _ _ hnd.2
    intro p' hp'
    rw [alookup_ainsert]
    have hne : p.1 ≠ p'.1 := by
      intro hEq
      exact hnd.1 (hEq ▸ List.mem_map_of_mem Prod.fst hp')
    rw [if_neg hne]
    exact hnone p' (List.mem_cons_of_mem _ hp')

/-- Folding `histStep` from a bounded history yields exactly the last 100
of everything appended. -/
theorem foldl_histStep :
    ∀ (as h : List Alert), h.length ≤ 100 →
      as.foldl histStep h = (h ++ as).drop ((h ++ as).length - 100) := by
  intro as
  induction as with
  | nil =>
    intro h hl
    simp [Nat.sub_eq_zero_of_le hl]
  | cons a rest ih =>
    intro h hl
    rw [List.foldl_cons]
    by_cases hc : h.length = 100
    · have hstep : histStep h a = (h ++ [a]).drop 1 := by
        simp only [histStep, List.length_append, List.length_cons, List.length_nil, hc]
        norm_num
      have hlen : ((h ++ [a]).drop 1).length ≤ 100 := by simp [hc]
      have e1 : (h ++ [a]).drop 1 ++ rest = ((h ++ [a]) ++ rest).drop 1 :=
        (List.drop_append_of_le_length (by simp : 1 ≤ (h ++ [a]).length)).symm
      have e2 : (h ++ [a]) ++ rest = h ++ a :: rest := by simp
      rw [hstep, ih _ hlen, e1, List.drop_drop, e2]
      congr 1
      simp only [List.length_drop, List.length_append, List.length_cons, hc]
      omega
    · have hstep : histStep h a = h ++ [a] := by
        simp only [histStep, List.length_append, List.length_cons, List.length_nil]
        rw [if_neg (by omega)]
      rw [hstep, ih _ (by simp; omega)]
      simp

/-- `handleAll` updates the history by folding `histStep`. -/
theorem handleAll_history (as : List Alert) :
    ∀ (o : Orchestrator), (o.handleAll as).alert_history = as.foldl histStep o.alert_history := by
  induction as with
  | nil => intro o; rfl
  | cons a rest ih =>
    intro o
    rw [Orchestrator.handleAll, List.foldl_cons, List.foldl_cons]
    exact ih ((o.handle a).1)

/-! ## Fixtures for concrete instances -/

/-- The moderate table row, by evaluating the dict lookup. -/
theorem deriveAllocation_moderate :
    deriveAllocation "moderate" = [("LOW", 50/100), ("MODERATE", 40/100), ("HIGH", 10/100)] := rfl

/-- The aggressive table row, by evaluating the dict lookup. -/
theorem deriveAllocation_aggressive :
    deriveAllocation "aggressive" = [("LOW", 30/100), ("MODERATE", 40/100), ("HIGH", 30/100)] := rfl

/-- A sample alert. -/
def exAlert : Alert := ⟨"IDLE_ASSET", .LOW, "title", "message", "action", "ts"⟩

/-- An orchestrator as built by `AgentOrchestrator("GWALLET", {})` with the
source defaults. -/
def exOrch0 : Orchestrator := initOrchestrator "GWALLET" ⟨none, none, none⟩ "" "moderate"

/-- `exOrch0` after one handled alert. -/
def exOrchHist : Orchestrator := (exOrch0.handle exAlert).1

/-! ## Claims -/

/-- Claim C2: after every `_handle_notification` call the history length is
at most 100, the retained alerts are exactly the most recently appended
ones in insertion order (all of them up to 100 calls, the last 100
afterwards), and the most recently handled alert is last. -/
theorem alert_history_bounded_fifo (w : String) (ch : Channels) (ph rt : String)
    (as : List Alert) :
    ((initOrchestrator w ch ph rt).handleAll as).alert_history.length ≤ 100
    ∧ ((initOrchestrator w ch ph rt).handleAll as).alert_history
        = as.drop (as.length - 100)
    ∧ ∀ a : Alert,
        ((initOrchestrator w ch ph rt).handleAll (as ++ [a])).alert_history.getLast?
          = some a := by
  have hbase : ∀ bs : List Alert,
      ((initOrchestrator w ch ph rt).handleAll bs).alert_history
        = bs.drop (bs.length - 100) := by
    intro bs
    rw [handleAll_history]
    have h := foldl_histStep bs [] (by simp)
    simpa using h
  refine ⟨?_, hbase as, ?_⟩
  · rw [hbase, List.length_drop]
    omega
  · intro a
    rw [hbase]
    have hk : (as ++ [a]).length - 100 ≤ as.length := by
      rw [List.length_append, List.length_singleton]
      omega
    rw [List.drop_append_of_le_length hk]
    simp

/-- Claim C3, counterexample: on a history of one alert,
`get_recent_alerts(0)` returns the whole history (Python `l[-0:]` is
`l[0:]`), not the empty list the claim requires. -/
theorem get_recent_alerts_zero_cex :
    exOrchHist.alert_history = [exAlert]
    ∧ exOrchHist.get_recent_alerts 0 = [exAlert]
    ∧ exOrchHist.get_recent_alerts 0 ≠ [] := by
  refine ⟨rfl, rfl, by decide⟩

/-- Claim C3, amended: for `limit ≥ 1`, `get_recent_alerts(limit)` returns
the last `min(limit, len(history))` alerts in insertion order; for
`limit = 0` it returns the whole history; for `limit < 0` it drops the
first `-limit` alerts instead. -/
theorem get_recent_alerts_slice (o : Orchestrator) (limit : Int) :
    (1 ≤ limit →
      o.get_recent_alerts limit
          = o.alert_history.drop (o.alert_history.length - limit.toNat)
      ∧ (o.get_recent_alerts limit).length = min limit.toNat o.alert_history.length)
    ∧ (limit = 0 → o.get_recent_alerts limit = o.alert_history)
    ∧ (limit < 0 → o.get_recent_alerts limit = o.alert_history.drop (-limit).toNat) := by
  refine ⟨?_, ?_, ?_⟩
  · intro h1
    have hneg : -limit < 0 := by omega
    have ht : ((o.alert_history.length : Int) + -limit).toNat
        = o.alert_history.length - limit.toNat := by omega
    refine ⟨?_, ?_⟩
    · rw [Orchestrator.get_recent_alerts, pySliceFrom, if_pos hneg, ht]
    · rw [Orchestrator.get_recent_alerts, pySliceFrom, if_pos hneg, ht]
      rw [List.length_drop]
      omega
  · intro h0
    subst h0
    rfl
  · intro hneg
    have h2 : ¬ (-limit < 0) := by omega
    rw [Orchestrator.get_recent_alerts, pySliceFrom, if_neg h2]

/-- Claim C3 witness: the amended slice semantics at concrete limits 5, 0
and -1 on a one-alert history. -/
theorem get_recent_alerts_slice_witness :
    exOrchHist.get_recent_alerts 5 = [exAlert]
    ∧ exOrchHist.get_recent_alerts 0 = exOrchHist.alert_history
    ∧ exOrchHist.get_recent_alerts (-1) = [] := by
  refine ⟨?_, (get_recent_alerts_slice exOrchHist 0).2.1 rfl, ?_⟩
  · have h := ((get_recent_alerts_slice exOrchHist 5).1 (by norm_num)).1
    rw [h]
    rfl
  · have h := (get_recent_alerts_slice exOrchHist (-1)).2.2 (by norm_num)
    rw [h]
    rfl

/-- Claim C4: for every handled alert, the sms channel fires exactly when
the sms preference is present and enabled and the priority is HIGH or
CRITICAL; LOW and MEDIUM alerts never reach sms. -/
theorem sms_priority_gate :
    (∀ (o : Orchestrator) (a : Alert),
        Channel.sms ∈ (o.handle a).2 ↔
          o.notification_channels.sms = some true
          ∧ (a.priority = Priority.HIGH ∨ a.priority = Priority.CRITICAL))
    ∧ ∀ (o : Orchestrator) (ty ti m ac ts : String),
        Channel.sms ∉ (o.handle ⟨ty, Priority.LOW, ti, m, ac, ts⟩).2
        ∧ Channel.sms ∉ (o.handle ⟨ty, Priority.MEDIUM, ti, m, ac, ts⟩).2 := by
  have key : ∀ (o : Orchestrator) (a : Alert),
      Channel.sms ∈ (o.handle a).2 ↔
        o.notification_channels.sms = some true
        ∧ (a.priority = Priority.HIGH ∨ a.priority = Priority.CRITICAL) := by
    intro o a
    rcases hsms : o.notification_channels.sms with _ | b
    · simp only [Orchestrator.handle, firedChannels, hsms, List.mem_append]
      split_ifs <;> simp_all
    · cases b
      · simp only [Orchestrator.handle, firedChannels, hsms, List.mem_append]
        split_ifs <;> simp_all
      · cases hp : a.priority <;>
          simp only [Orchestrator.handle, firedChannels, hsms, hp, pstr, List.mem_append] <;>
          split_ifs <;> simp_all
  refine ⟨key, ?_⟩
  intro o ty ti m ac ts
  constructor
  · rw [key]
    rintro ⟨-, h | h⟩ <;> simp at h
  · rw [key]
    rintro ⟨-, h | h⟩ <;> simp at h

/-- Claim C10: when a channel key is missing from the preferences dict,
push and email dispatch (default enabled) while sms does not (default
disabled), for every alert priority. -/
theorem missing_channel_defaults (w ph rt : String) (ags : List Agent)
    (hist : List Alert) (ta : List (String × ℚ)) (ra : Option (List (String × ℚ)))
    (sl : List String) (a : Alert) :
    (Orchestrator.handle ⟨w, ⟨none, none, none⟩, ph, rt, ags, hist, ta, ra, sl⟩ a).2
      = [Channel.push, Channel.email] := by
  simp [Orchestrator.handle, firedChannels]

/-- `exOrch0` after `activate_all_agents` (which always succeeds). -/
def exOrch1 : Orchestrator := (exOrch0.activate_all_agents).toOption.getD exOrch0

/-- `exOrch1` after `update_settings({"riskTolerance": "aggressive"})`. -/
def exOrchUpdated : Orchestrator :=
  exOrch1.update_settings ⟨none, some "aggressive", none, none, none⟩

/-- Claim C1, counterexample: constructing with "moderate", activating, and
then updating riskTolerance to "aggressive" leaves both the orchestrator's
`target_allocation` and the allocation captured by the running
AutoRebalancer at the moderate row; the next rebalancer cycle on the
mocked current allocation emits nothing, while the aggressive allocation
the claim promises would emit an alert. -/
theorem update_settings_no_rederive_cex :
    exOrchUpdated.risk_tolerance = "aggressive"
    ∧ exOrchUpdated.target_allocation = deriveAllocation "moderate"
    ∧ exOrchUpdated.rebalancerAlloc = some (deriveAllocation "moderate")
    ∧ deriveAllocation "moderate" ≠ deriveAllocation "aggressive"
    ∧ rebalancerCheck "t" (exOrchUpdated.rebalancerAlloc.getD []) mock_current_allocation = []
    ∧ rebalancerCheck "t" (deriveAllocation "aggressive") mock_current_allocation ≠ [] := by
  refine ⟨rfl, rfl, rfl, ?_, ?_, ?_⟩
  · rw [deriveAllocation_moderate, deriveAllocation_aggressive]
    intro h
    rw [List.cons_eq_cons, Prod.mk.injEq] at h
    exact absurd h.1.2 (by norm_num)
  · have e : exOrchUpdated.rebalancerAlloc.getD [] = deriveAllocation "moderate" := rfl
    have l1 : alookup "LOW" mock_current_allocation = some (45/100) := rfl
    have l2 : alookup "MODERATE" mock_current_allocation = some (35/100) := rfl
    have l3 : alookup "HIGH" mock_current_allocation = some (20/100) := rfl
    rw [e, deriveAllocation_moderate]
    norm_num [rebalancerCheck, l1, l2, l3, pyabs]
  · have l1 : alookup "LOW" mock_current_allocation = some (45/100) := rfl
    have l2 : alookup "MODERATE" mock_current_allocation = some (35/100) := rfl
    have l3 : alookup "HIGH" mock_current_allocation = some (20/100) := rfl
    rw [deriveAllocation_aggressive]
    norm_num [rebalancerCheck, l1, l2, l3, pyabs]

/-- Claim C1, amended: `update_settings` stores the new riskTolerance tag
but never re-derives the target allocation; both the orchestrator's
`target_allocation` and the allocation the running AutoRebalancer compares
against on its next cycle stay as derived at construction, and the
aggressive row takes effect only in an orchestrator constructed with it. -/
theorem update_settings_keeps_allocation (o : Orchestrator) (s : Settings) :
    (o.update_settings s).target_allocation = o.target_allocation
    ∧ (o.update_settings s).rebalancerAlloc = o.rebalancerAlloc
    ∧ (o.update_settings s).agents = o.agents
    ∧ (∀ rt, s.riskTolerance = some rt → (o.update_settings s).risk_tolerance = rt)
    ∧ (∀ now cur, rebalancerCheck now ((o.update_settings s).rebalancerAlloc.getD []) cur
        = rebalancerCheck now (o.rebalancerAlloc.getD []) cur)
    ∧ ∀ w ch ph, (initOrchestrator w ch ph "aggressive").target_allocation
        = [("LOW", 30/100), ("MODERATE", 40/100), ("HIGH", 30/100)] := by
  obtain ⟨p, rt, e, sm, pu⟩ := s
  cases p <;> cases rt <;> cases e <;> cases sm <;> cases pu <;>
    simp [Orchestrator.update_settings, initOrchestrator, deriveAllocation_aggressive]

/-- Claim C1 witness: the amended behaviour at the concrete activated
orchestrator and the concrete settings update. -/
theorem update_settings_keeps_allocation_witness :
    exOrchUpdated.target_allocation = exOrch1.target_allocation
    ∧ exOrchUpdated.risk_tolerance = "aggressive" := by
  refine ⟨(update_settings_keeps_allocation exOrch1
      ⟨none, some "aggressive", none, none, none⟩).1, ?_⟩
  exact (update_settings_keeps_allocation exOrch1
      ⟨none, some "aggressive", none, none, none⟩).2.2.2.1 "aggressive" rfl

/-- Claim C5: the Opportunity Scout and the Price Movement monitor record a
baseline and emit nothing for a key they observe for the first time (in
particular a whole first cycle is silent), while the Idle Asset, Risk and
Yield Harvester monitors compare against absolute thresholds and can alert
on their very first cycle. -/
theorem first_observation_policy :
    (∀ (now : String) (tracked : List (String × ℚ)) (o : Opp),
        alookup o.protocol tracked = none →
        scoutEntryAlerts now tracked o = []
        ∧ alookup o.protocol (ainsert o.protocol o.apy tracked) = some o.apy)
    ∧ (∀ (now : String) (opps : List Opp), (opps.map (fun o => o.protocol)).Nodup →
        (scoutCheck now [] opps).2 = [])
    ∧ (∀ (now : String) (last_prices : List (String × ℚ)) (asset : String) (price : ℚ),
        alookup asset last_prices = none →
        priceEntryAlerts now last_prices asset price = []
        ∧ alookup asset (ainsert asset price last_prices) = some price)
    ∧ (∀ (now : String) (ps : List (String × ℚ)), (ps.map Prod.fst).Nodup →
        (priceCheck now [] ps).2 = [])
    ∧ idleCheck "t" mock_idle_assets ≠ []
    ∧ riskCheck "t" [⟨"HIGH", "Protocol risk", "msg"⟩] ≠ []
    ∧ yieldCheck "t" mock_unclaimed_rewards ≠ [] := by
  refine ⟨?_, ?_, ?_, ?_, ?_, ?_, ?_⟩
  · intro now tracked o h
    refine ⟨by simp [scoutEntryAlerts, h], ?_⟩
    rw [alookup_ainsert, if_pos rfl]
  · intro now opps hnd
    exact scoutCheck_all_new now opps [] (fun _ _ => rfl) hnd
  · intro now last asset price h
    refine ⟨by simp [priceEntryAlerts, h], ?_⟩
    rw [alookup_ainsert, if_pos rfl]
  · intro now ps hnd
    exact priceCheck_all_new now ps [] (fun _ _ => rfl) hnd
  · simp [idleCheck, mock_idle_assets]
  · simp [riskCheck]
  · norm_num [yieldCheck, mock_unclaimed_rewards]

/-- Claim C5 witness: the hypothesised parts at the mocked collaborator
data, which has one observation per key. -/
theorem first_observation_policy_witness :
    (scoutCheck "t" [] mock_opportunities).2 = []
    ∧ (priceCheck "t" [] mock_current_prices).2 = []
    ∧ scoutEntryAlerts "t" [] ⟨"Aquarius", 125/10, "MODERATE"⟩ = []
    ∧ priceEntryAlerts "t" [] "XLM" (12/100) = [] := by
  refine ⟨?_, ?_, ?_, ?_⟩
  · exact first_observation_policy.2.1 "t" mock_opportunities (by decide)
  · exact first_observation_policy.2.2.2.1 "t" mock_current_prices (by decide)
  · exact (first_observation_policy.1 "t" [] ⟨"Aquarius", 125/10, "MODERATE"⟩ rfl).1
  · exact (first_observation_policy.2.2.1 "t" [] "XLM" (12/100) rfl).1

/-- Claim C6, counterexample: a second `start()` without an intervening
`stop()` does not fail with AlreadyRunning — it succeeds and spawns a
second concurrent run-loop thread. -/
theorem start_twice_cex :
    (mkAgent "Idle Asset Monitor" 5).start.bind Agent.start
      = Except.ok { name := "Idle Asset Monitor", checkIntervalSeconds := 300,
                    is_active := true, loopThreads := 2 } := rfl

/-- Claim C6, amended: `start()` never fails; calling it a second time
without an intervening `stop()` leaves the agent active and spawns an
additional concurrent run-loop thread. -/
theorem start_always_spawns (a : Agent) :
    a.start.bind Agent.start
      = Except.ok { a with is_active := true, loopThreads := a.loopThreads + 2 }
    ∧ ∀ e : AgentError, a.start ≠ Except.error e := by
  refine ⟨rfl, ?_⟩
  intro e h
  exact Except.noConfusion h

/-- Claim C7, counterexample: a second `activate_all_agents` on an already
activated orchestrator does not fail with AlreadyActive — it constructs
and starts a second set of six monitors (twelve run-loop threads spawned
in total). -/
theorem activate_twice_cex :
    Except.map (fun o => (o.startedLoops.length, o.agents.length))
      (exOrch0.activate_all_agents.bind Orchestrator.activate_all_agents)
      = Except.ok (12, 6) := rfl

/-- Claim C7, amended: `activate_all_agents` never fails; called while
agents are already running it constructs and starts a fresh set of six
monitors, replacing the agent list, while every previously spawned
run-loop thread keeps running. -/
theorem activate_always_restarts (o : Orchestrator) :
    ∃ o', o.activate_all_agents = Except.ok o'
      ∧ o'.agents = sixStartedAgents
      ∧ o'.agents.length = 6
      ∧ (∀ a ∈ o'.agents, a.is_active = true ∧ a.loopThreads = 1)
      ∧ o'.startedLoops = o.startedLoops ++ sixStartedAgents.map Agent.name
      ∧ o'.rebalancerAlloc = some o.target_allocation := by
  refine ⟨_, rfl, rfl, rfl, ?_, rfl, rfl⟩
  intro a ha
  fin_cases ha <;> exact ⟨rfl, rfl⟩

/-- Claim C8: over any finite script of cycle outcomes, the run loop
processes every cycle (an exception never terminates or escapes it), a
failed cycle contributes no alerts and is followed by the fixed 60-second
fallback sleep, and a successful cycle contributes its alerts and is
followed by the monitor's own interval. -/
theorem check_failure_isolated (interval : Nat)
    (outcomes : List (Except String (List Alert))) :
    (runLoop interval outcomes).1
      = (outcomes.map (fun r => match r with | .ok as => as | .error _ => [])).flatten
    ∧ (runLoop interval outcomes).2
      = outcomes.map (fun r => match r with | .ok _ => interval | .error _ => 60)
    ∧ ∀ e : String, runLoop interval (Except.error e :: outcomes)
        = ((runLoop interval outcomes).1, 60 :: (runLoop interval outcomes).2) := by
  refine ⟨?_, ?_, fun e => rfl⟩
  · induction outcomes with
    | nil => rfl
    | cons r rest ih => cases r <;> simp [runLoop, ih]
  · induction outcomes with
    | nil => rfl
    | cons r rest ih => cases r <;> simp [runLoop, ih]

/-- Claim C9: from baseline XLM=0.10, price 0.106 emits exactly one MEDIUM
alert whose message contains "0.1060" and updates the baseline; from the
updated baseline, price 0.03 emits exactly one HIGH alert; in general a
tracked asset alerts iff the relative change is at least 0.05 in
magnitude, MEDIUM below magnitude 0.10 and HIGH at or above it. -/
theorem price_movement_thresholds (now : String) :
    (priceCheck now [("XLM", 1/10)] [("XLM", 53/500)]).1 = [("XLM", 53/500)]
    ∧ (priceCheck now [("XLM", 1/10)] [("XLM", 53/500)]).2.length = 1
    ∧ (∀ a ∈ (priceCheck now [("XLM", 1/10)] [("XLM", 53/500)]).2,
        a.priority = Priority.MEDIUM ∧ ∃ u v, a.message = u ++ "0.1060" ++ v)
    ∧ (priceCheck now [("XLM", 53/500)] [("XLM", 3/100)]).2.length = 1
    ∧ (∀ a ∈ (priceCheck now [("XLM", 53/500)] [("XLM", 3/100)]).2,
        a.priority = Priority.HIGH)
    ∧ ∀ (last_prices : List (String × ℚ)) (asset : String) (price previous : ℚ),
        alookup asset last_prices = some previous → previous ≠ 0 →
        (priceEntryAlerts now last_prices asset price ≠ [] ↔
          |(price - previous) / previous| ≥ 5/100)
        ∧ ∀ a ∈ priceEntryAlerts now last_prices asset price,
            a.priority = if |(price - previous) / previous| < 10/100
              then Priority.MEDIUM else Priority.HIGH := by
  have hl1 : alookup "XLM" [("XLM", (1:ℚ)/10)] = some (1/10) := rfl
  have hl2 : alookup "XLM" [("XLM", (53:ℚ)/500)] = some (53/500) := rfl
  have hf4 : fmtFixed 4 ((53:ℚ)/500) = "0.1060" := by
    norm_num [fmtFixed]
    decide
  have hcond1 : pyabs (((53:ℚ)/500 - 1/10) / (1/10)) ≥ 1/20 := by norm_num [pyabs]
  have hcond2 : pyabs (((53:ℚ)/500 - 1/10) / (1/10)) < 1/10 := by norm_num [pyabs]
  have hcond3 : pyabs (((3:ℚ)/100 - 53/500) / (53/500)) ≥ 1/20 := by norm_num [pyabs]
  have hcond4 : ¬ pyabs (((3:ℚ)/100 - 53/500) / (53/500)) < 1/10 := by norm_num [pyabs]
  refine ⟨rfl, ?_, ?_, ?_, ?_, ?_⟩
  · simp only [priceCheck, priceEntryAlerts, hl1, List.append_nil]
    rw [if_pos hcond1]
    rfl
  · simp only [priceCheck, priceEntryAlerts, hl1, List.append_nil]
    rw [if_pos hcond1, if_pos hcond2]
    intro a ha
    rw [List.mem_singleton] at ha
    subst ha
    refine ⟨rfl, "Current price: $", "", ?_⟩
    show "Current price: $" ++ fmtFixed 4 ((53:ℚ)/500) = _
    rw [hf4]
    decide
  · simp only [priceCheck, priceEntryAlerts, hl2, List.append_nil]
    rw [if_pos hcond3]
    rfl
  · simp only [priceCheck, priceEntryAlerts, hl2, List.append_nil]
    rw [if_pos hcond3, if_neg hcond4]
    intro a ha
    rw [List.mem_singleton] at ha
    subst ha
    rfl
  · intro lp asset price previous hl h0
    have h5 : (5:ℚ)/100 = 1/20 := by norm_num
    have h10 : (10:ℚ)/100 = 1/10 := by norm_num
    simp only [priceEntryAlerts, hl, h5, h10, ← pyabs_eq_abs]
    by_cases hc : pyabs ((price - previous) / previous) ≥ 1/20
    · rw [if_pos hc]
      refine ⟨iff_of_true (by simp) hc, ?_⟩
      intro a ha
      rw [List.mem_singleton] at ha
      subst ha
      rfl
    · rw [if_neg hc]
      refine ⟨iff_of_false (by simp) hc, ?_⟩
      intro a ha
      exact absurd ha (List.not_mem_nil a)

/-- Claim C9 witness: the general threshold rule applied at the concrete
baseline XLM=0.10 with observed price 0.106. -/
theorem price_movement_thresholds_witness :
    (priceEntryAlerts "t" [("XLM", 1/10)] "XLM" (53/500) ≠ [] ↔
      |((53:ℚ)/500 - 1/10) / (1/10)| ≥ 5/100) := by
  exact ((price_movement_thresholds "t").2.2.2.2.2
    [("XLM", 1/10)] "XLM" (53/500) (1/10) rfl (by norm_num)).1

end StellarCompass
